import Mathlib

/-!
Shallow embedding of the llms-fetcher repository (src/src/index.js, second
revision of the file, the one exporting ensureFreshLlmsFile).

Modelling conventions, fixed once for the whole development:

- JavaScript string-or-null values (the etag / lastModified metadata fields
  and response headers) are modelled as `Option String`, where `none` stands
  for every falsy value (null, undefined, the empty string).  Under this
  collapse the source idiom `x || null` is the identity and the truthiness
  test `if (x)` is `Option.isSome`.
- JavaScript numbers are modelled by `JsNum` (NaN, the two infinities, or a
  rational value); timestamps, which the source only compares and subtracts,
  are modelled as `Int` (milliseconds).  Binary floating point rounding is
  not modelled.
- The filesystem state touched by the core is the pair of the content file
  at the output path and the metadata JSON file; it is modelled by `Store`.
  `readJsonSafe` returning null on a missing or unparsable file is the
  `Option MetaJs` in `Store.metaFile`.  `fs.writeFileSync` and
  `writeJsonSafe` can fail at runtime; whether each write succeeds is an
  input (`FsEffects`), since the source decides nothing about it.
- The network is abstracted at two levels.  For the redirect-following
  loops inside `fetchTextFile` / `fetchTextFileWithMetadata`, a server
  environment `String → ServerResp` maps each absolute URL to its response
  (the resolution `new URL(location, parsed)` is modelled by the server
  answering with an already-resolved absolute location), and the recursion
  receives explicit fuel: a result of `none` means the source code, which
  has no recursion bound, has not terminated within that many hops.  For
  `ensureFreshLlmsFile`, which only sees the settled promise of one fetch,
  the fetch outcome `Except JsErr FetchOk` is passed directly.
- `path.resolve(process.cwd(), outputDir, outputFile)` is modelled as the
  join `outputDir ++ "/" ++ outputFile` (the working directory is a fixed
  ambient value and never varies inside one invocation).
- `Date` arithmetic in `msUntilNextRunAt` is modelled in a fixed-offset
  timezone without daylight saving time: `now` is a millisecond count such
  that local midnights are exactly the multiples of 86400000.
-/

/-- JavaScript number: NaN, an infinity, or a finite value (idealised as a
rational; the source only multiplies, floors and compares these). -/
inductive JsNum where
  | nan
  | posInf
  | negInf
  | num (q : Rat)
deriving DecidableEq

/-- Number.isFinite. -/
def JsNum.isFinite : JsNum → Bool
  | .num _ => true
  | _ => false

/-- Errors raised by the source (rejected promises and thrown Error values). -/
inductive JsErr where
  | invalidUrl
  | timeout
  | statusErr (code : Nat)
  | connError
  | configRequired
  | ioError
deriving DecidableEq

/-- Resolved value of fetchTextFileWithMetadata: statusCode is 200 or 304,
text is the body, etag / lastModified are the validators carried along. -/
structure FetchOk where
  statusCode : Nat
  text : String
  etag : Option String
  lastModified : Option String
deriving DecidableEq

/-- What the server at a given absolute URL answers with.  `invalid` models
the URL failing to parse in `new URL(fileUrl)`; `redirect` models a 3xx
status with a Location header, already resolved to an absolute URL;
`okBody` is a 200 with body and response validators; `notModified` is a 304
without Location; `httpStatus` is any other status; `fail` is a connection
error or timeout surfaced through the request error event. -/
inductive ServerResp where
  | invalid
  | redirect (location : String)
  | okBody (text : String) (etag lastModified : Option String)
  | notModified
  | httpStatus (code : Nat)
  | fail (e : JsErr)

/-- fetchTextFile from the source: follows every 3xx-with-Location by
re-issuing the request at the resolved location, accepts only a 200, and
rejects every other status.  The source recursion has no depth bound, so the
embedding takes explicit fuel; `none` means the call has not settled within
`fuel` hops. -/
def fetchTextFile (env : String → ServerResp) : Nat → String → Option (Except JsErr String)
  | 0, _ => none
  | fuel + 1, url =>
    match env url with
    | .invalid => some (Except.error JsErr.invalidUrl)
    | .redirect loc => fetchTextFile env fuel loc
    | .okBody text _ _ => some (Except.ok text)
    | .notModified => some (Except.error (JsErr.statusErr 304))
    | .httpStatus code => some (Except.error (JsErr.statusErr code))
    | .fail e => some (Except.error e)

/-- fetchTextFileWithMetadata from the source: like fetchTextFile but sends
the stored validators, resolves a 304 with empty body and the unchanged
validators, and resolves a 200 with the body and the response validators.
Fuel as in `fetchTextFile`; `none` means still redirecting after `fuel`
hops. -/
def fetchTextFileWithMetadata (env : String → ServerResp) (etag lastModified : Option String) :
    Nat → String → Option (Except JsErr FetchOk)
  | 0, _ => none
  | fuel + 1, url =>
    match env url with
    | .invalid => some (Except.error JsErr.invalidUrl)
    | .redirect loc => fetchTextFileWithMetadata env etag lastModified fuel loc
    | .notModified => some (Except.ok ⟨304, "", etag, lastModified⟩)
    | .okBody text e lm => some (Except.ok ⟨200, text, e, lm⟩)
    | .httpStatus code => some (Except.error (JsErr.statusErr code))
    | .fail e => some (Except.error e)

/-- Parsed metadata JSON file: the three fields the source reads.  A field
holds `none` when absent, null or otherwise falsy (for lastFetchedAtMs, when
not a number: the source guards with a typeof check). -/
structure MetaJs where
  etag : Option String
  lastModified : Option String
  lastFetchedAtMs : Option Int
deriving DecidableEq

/-- On-disk state of one cache entry: the content file at the output path
(`none` when `fs.existsSync` is false) and the metadata file (`none` when
`readJsonSafe` yields null). -/
structure Store where
  content : Option String
  metaFile : Option MetaJs
deriving DecidableEq

/-- Configuration fields of the source consumed by ensureFreshLlmsFile. -/
structure FetcherConfig where
  publicUrl : String
  outputDir : String
  outputFile : String
  ttlHours : JsNum
deriving DecidableEq

/-- Whether the two filesystem writes inside ensureFreshLlmsFile would
succeed if attempted (an environment fact, not decided by the source). -/
structure FsEffects where
  contentWriteOk : Bool
  metaWriteOk : Bool
deriving DecidableEq

deriving instance DecidableEq for Except

/-- Result of one ensureFreshLlmsFile invocation: the returned value or
thrown error, the final on-disk state, and whether a network request was
issued. -/
structure EnsureOutcome where
  result : Except JsErr String
  store : Store
  networkCalled : Bool
deriving DecidableEq

/-- path.resolve(process.cwd(), outputDir, outputFile), with the working
directory fixed. -/
def outPathOf (cfg : FetcherConfig) : String :=
  cfg.outputDir ++ ("/") ++ cfg.outputFile

/-- The source line `const meta = readJsonSafe(metaPath) || {};`: a missing
or unparsable metadata file behaves as the empty object. -/
def metaOf (st : Store) : MetaJs :=
  st.metaFile.getD ⟨none, none, none⟩

/-- The source line guarding the timestamp:
`typeof meta.lastFetchedAtMs === 'number' ? meta.lastFetchedAtMs : 0`. -/
def lastFetchedOf (m : MetaJs) : Int :=
  m.lastFetchedAtMs.getD 0

/-- The TTL in milliseconds, from the source line
`Math.max(0, Math.floor((Number.isFinite(ttlHours) ? ttlHours : 24) * 60 * 60 * 1000))`. -/
def ttlMsOf (t : JsNum) : Nat :=
  (max 0 (Int.floor (((match t with | JsNum.num q => q | _ => 24) : Rat) * (60 * 60 * 1000)))).toNat

/-- The fresh-cache short-circuit condition of the source:
`fileExists && lastFetchedAtMs && now - lastFetchedAtMs < ttlMs`. -/
def freshHit (cfg : FetcherConfig) (st : Store) (now : Int) : Bool :=
  st.content.isSome && decide (lastFetchedOf (metaOf st) ≠ 0) &&
    decide (now - lastFetchedOf (metaOf st) < (ttlMsOf cfg.ttlHours : Int))

/-- writeJsonSafe from the source: attempts the metadata write and silently
discards any error (`catch {}`), so a failed write leaves the state
unchanged and signals nothing. -/
def writeJsonSafe (eff : FsEffects) (st : Store) (m : MetaJs) : Store :=
  if eff.metaWriteOk then { st with metaFile := some m } else st

/-- ensureFreshLlmsFile from the source.  `now` is Date.now(); `fetchReply`
is the settled outcome of the fetchTextFileWithMetadata call it issues when
the fresh-cache short-circuit does not fire (the derivation of the source
URL via joinUrl does not influence the state machine and is modelled
separately).  The final `if` ladder mirrors the source: throw when publicUrl
is empty; return the output path without any network activity on a fresh
hit; on a fetch error serve the stale file when one exists, else rethrow; on
a 304 refresh only the metadata timestamp; on a 200 write the content, then
the metadata (each write subject to `eff`), a failing content write being
caught by the same outer catch. -/
def ensureFreshLlmsFile (cfg : FetcherConfig) (st : Store) (now : Int)
    (fetchReply : Except JsErr FetchOk) (eff : FsEffects) : EnsureOutcome :=
  if cfg.publicUrl = "" then ⟨Except.error JsErr.configRequired, st, false⟩
  else if freshHit cfg st now then ⟨Except.ok (outPathOf cfg), st, false⟩
  else
    match fetchReply with
    | Except.error e =>
      if st.content.isSome then ⟨Except.ok (outPathOf cfg), st, true⟩
      else ⟨Except.error e, st, true⟩
    | Except.ok resp =>
      if resp.statusCode = 304 then
        ⟨Except.ok (outPathOf cfg),
          writeJsonSafe eff st ⟨(metaOf st).etag, (metaOf st).lastModified, some now⟩, true⟩
      else
        if eff.contentWriteOk then
          ⟨Except.ok (outPathOf cfg),
            writeJsonSafe eff { st with content := some resp.text }
              ⟨resp.etag, resp.lastModified, some now⟩, true⟩
        else
          if st.content.isSome then ⟨Except.ok (outPathOf cfg), st, true⟩
          else ⟨Except.error JsErr.ioError, st, true⟩

/-- Components of a parsed WHATWG URL as far as the source touches them:
scheme, host, optional port, pathname, search (query, including the leading
question mark when nonempty) and hash (fragment, including the leading hash
mark when nonempty).  Strings are lists of characters. -/
structure UrlParts where
  scheme : List Char
  host : List Char
  port : Option Nat
  pathname : List Char
  search : List Char
  hash : List Char
deriving DecidableEq

/-- The pathname computation of joinUrl for the suffix "/llms.txt":
`(u.pathname.endsWith('/') ? u.pathname.slice(0, -1) : u.pathname) + pathSuffix`. -/
def joinPathname (p : List Char) : List Char :=
  (if p.getLast? = some '/' then p.dropLast else p) ++ String.toList ("/llms.txt")

/-- joinUrl from the source on a base that parses as a URL: only the
pathname changes. -/
def joinUrl (u : UrlParts) : UrlParts :=
  { u with pathname := joinPathname u.pathname }

/-- The fallback branch of joinUrl for a base that does not parse:
`String(base).replace(/\/$/, '') + pathSuffix` (one trailing slash removed). -/
def joinUrlNaive (base : List Char) : List Char :=
  (if base.getLast? = some '/' then base.dropLast else base) ++ String.toList ("/llms.txt")

/-- Appending one "/" character to the serialised form of a URL and
re-parsing: the slash lands in the fragment when one is present, else in the
query when one is present, else at the end of the pathname. -/
def appendSlashToUrl (u : UrlParts) : UrlParts :=
  if u.hash ≠ [] then { u with hash := u.hash ++ [ '/' ] }
  else if u.search ≠ [] then { u with search := u.search ++ [ '/' ] }
  else { u with pathname := u.pathname ++ [ '/' ] }

/-- `l` ends with the character sequence `s`. -/
def listEndsWith (l s : List Char) : Prop :=
  ∃ t, l = t ++ s

/-- String.prototype.split with a single-character separator. -/
def jsSplit (sep : Char) : List Char → List (List Char)
  | [] => [[]]
  | c :: rest =>
    if c = sep then [] :: jsSplit sep rest
    else
      match jsSplit sep rest with
      | [] => [[c]]
      | part :: parts => (c :: part) :: parts

/-- Number(s) for the strings reachable here: the empty string is 0, a
string of decimal digits is its value, anything else is NaN (`none`).
(Signs, whitespace and fractional forms never reach this code path and are
not modelled.) -/
def jsNumber (s : List Char) : Option Nat :=
  if s.all Char.isDigit then some (s.foldl (fun a c => 10 * a + (c.toNat - 48)) 0) else none

/-- msUntilNextRunAt from the source, under the fixed-offset Date model.
`String(runAt).split(':')` and `.map(Number)` give the hour and minute; a
NaN in either parsed slot yields the 24-hour default; with fewer than two
parts the minute slot is undefined, which escapes the NaN guard and poisons
the Date arithmetic (modelled as `none`).  Otherwise `next` is today at
`hh:mm`, pushed to tomorrow when not in the future, and the delay is
`next - now`. -/
def msUntilNextRunAt (runAt : List Char) (now : Nat) : Option Nat :=
  match jsSplit ':' runAt with
  | a :: b :: _ =>
    match jsNumber a, jsNumber b with
    | some hh, some mm =>
      let tod := now % 86400000
      let next0 := now - tod + (hh * 3600000 + mm * 60000)
      some (if next0 ≤ now then next0 + 86400000 - now else next0 - now)
    | _, _ => some 86400000
  | [a] =>
    match jsNumber a with
    | none => some 86400000
    | some _ => none
  | [] => none

/-- Character of one decimal digit. -/
def digitChar (n : Nat) : Char := Char.ofNat (48 + n)

/-- The five-character wall-clock string "HH:MM". -/
def hhmmChars (hh mm : Nat) : List Char :=
  [digitChar (hh / 10), digitChar (hh % 10), ':', digitChar (mm / 10), digitChar (mm % 10)]

/-- TTL of a nonnegative whole number of hours. -/
theorem ttlMsOf_nat (n : Nat) : ttlMsOf (JsNum.num (n : Rat)) = n * 3600000 := by
  unfold ttlMsOf
  have h1 : ((n : Rat) * (60 * 60 * 1000)) = ((n * 3600000 : Nat) : Rat) := by push_cast; ring
  rw [h1, Int.floor_natCast]
  omega

/-- A nonpositive finite ttlHours is clamped to 0 by the Math.max. -/
theorem ttlMsOf_nonpos (q : Rat) (h : q ≤ 0) : ttlMsOf (JsNum.num q) = 0 := by
  unfold ttlMsOf
  have h1 : q * (60 * 60 * 1000) ≤ 0 := mul_nonpos_of_nonpos_of_nonneg h (by norm_num)
  have h2 : Int.floor (q * (60 * 60 * 1000)) ≤ (0 : Int) := Int.floor_nonpos h1
  rw [max_eq_left h2]
  rfl

/-- A non-finite ttlHours falls back to the default of 24 hours. -/
theorem ttlMsOf_notFinite (t : JsNum) (h : t.isFinite = false) :
    ttlMsOf t = 86400000 := by
  have h24 := ttlMsOf_nat 24
  norm_num at h24
  cases t with
  | nan => unfold ttlMsOf at h24 ⊢; exact h24
  | posInf => unfold ttlMsOf at h24 ⊢; exact h24
  | negInf => unfold ttlMsOf at h24 ⊢; exact h24
  | num q => simp [JsNum.isFinite] at h

/-- Claim C2: when the network fetch fails while a content file already exists
at the output path, ensureFreshLlmsFile returns the existing output path and
modifies neither the content file nor the metadata file. -/
theorem c2_stale_fallback (cfg : FetcherConfig) (st : Store) (now : Int) (e : JsErr)
    (eff : FsEffects) (h1 : cfg.publicUrl ≠ "") (h2 : st.content.isSome = true) :
    (ensureFreshLlmsFile cfg st now (Except.error e) eff).result = Except.ok (outPathOf cfg) ∧
    (ensureFreshLlmsFile cfg st now (Except.error e) eff).store = st := by
  unfold ensureFreshLlmsFile
  rw [if_neg h1]
  by_cases hf : freshHit cfg st now
  · simp [hf]
  · simp [hf, h2]

/-- Witness for c2_stale_fallback at a concrete warm cache and connection error. -/
theorem c2_stale_fallback_witness :
    ((⟨"https://e", "public", "llms.txt", JsNum.num 1⟩ : FetcherConfig).publicUrl ≠ "" ∧
      ((⟨some ("old"), none⟩ : Store).content.isSome = true)) ∧
    (ensureFreshLlmsFile ⟨"https://e", "public", "llms.txt", JsNum.num 1⟩ ⟨some ("old"), none⟩
        5 (Except.error JsErr.connError) ⟨true, true⟩).result =
      Except.ok (outPathOf ⟨"https://e", "public", "llms.txt", JsNum.num 1⟩) ∧
    (ensureFreshLlmsFile ⟨"https://e", "public", "llms.txt", JsNum.num 1⟩ ⟨some ("old"), none⟩
        5 (Except.error JsErr.connError) ⟨true, true⟩).store = ⟨some ("old"), none⟩ :=
  ⟨⟨by decide, rfl⟩,
    c2_stale_fallback ⟨"https://e", "public", "llms.txt", JsNum.num 1⟩ ⟨some ("old"), none⟩
      5 JsErr.connError ⟨true, true⟩ (by decide) rfl⟩

/-- Claim C3: when the network fetch fails and no content file exists at the
output path, ensureFreshLlmsFile propagates the original fetch error to the
caller and creates no content file (the whole state is untouched). -/
theorem c3_failed_no_cache (cfg : FetcherConfig) (st : Store) (now : Int) (e : JsErr)
    (eff : FsEffects) (h1 : cfg.publicUrl ≠ "") (h2 : st.content = none) :
    (ensureFreshLlmsFile cfg st now (Except.error e) eff).result = Except.error e ∧
    (ensureFreshLlmsFile cfg st now (Except.error e) eff).store = st := by
  unfold ensureFreshLlmsFile freshHit
  rw [if_neg h1]
  simp [h2]

/-- Witness for c3_failed_no_cache at a concrete empty cache and timeout. -/
theorem c3_failed_no_cache_witness :
    ((⟨"https://e", "public", "llms.txt", JsNum.num 1⟩ : FetcherConfig).publicUrl ≠ "" ∧
      ((⟨none, none⟩ : Store).content = none)) ∧
    (ensureFreshLlmsFile ⟨"https://e", "public", "llms.txt", JsNum.num 1⟩ ⟨none, none⟩
        5 (Except.error JsErr.timeout) ⟨true, true⟩).result = Except.error JsErr.timeout ∧
    (ensureFreshLlmsFile ⟨"https://e", "public", "llms.txt", JsNum.num 1⟩ ⟨none, none⟩
        5 (Except.error JsErr.timeout) ⟨true, true⟩).store = ⟨none, none⟩ :=
  ⟨⟨by decide, rfl⟩,
    c3_failed_no_cache ⟨"https://e", "public", "llms.txt", JsNum.num 1⟩ ⟨none, none⟩
      5 JsErr.timeout ⟨true, true⟩ (by decide) rfl⟩

/-- TTL of one hour, in closed form. -/
theorem ttlMsOf_one : ttlMsOf (JsNum.num 1) = 3600000 := by
  have h := ttlMsOf_nat 1
  norm_num at h
  exact h

/-- Claim C7: when the conditional fetch returns 304 (and the metadata write
succeeds), only the lastFetchedAtMs field of the persisted metadata changes,
to the current time; the stored etag and lastModified validators are
preserved, the content file is not written, and the output path is
returned. -/
theorem c7_not_modified_timestamp_only (cfg : FetcherConfig) (st : Store) (now : Int)
    (resp : FetchOk) (eff : FsEffects) (h1 : cfg.publicUrl ≠ "")
    (h2 : freshHit cfg st now = false) (h3 : resp.statusCode = 304)
    (h4 : eff.metaWriteOk = true) :
    (ensureFreshLlmsFile cfg st now (Except.ok resp) eff).store.content = st.content ∧
    (ensureFreshLlmsFile cfg st now (Except.ok resp) eff).store.metaFile =
      some ⟨(metaOf st).etag, (metaOf st).lastModified, some now⟩ ∧
    (ensureFreshLlmsFile cfg st now (Except.ok resp) eff).result =
      Except.ok (outPathOf cfg) := by
  unfold ensureFreshLlmsFile writeJsonSafe
  rw [if_neg h1]
  simp [h2, h3, h4]

/-- Witness for c7_not_modified_timestamp_only at a concrete expired cache entry. -/
theorem c7_not_modified_timestamp_only_witness :
    (ensureFreshLlmsFile ⟨"https://e", "public", "llms.txt", JsNum.num 1⟩
        ⟨some ("old"), some ⟨some ("tag"), some ("lm"), some 1⟩⟩ 7200000
        (Except.ok ⟨304, "", some ("tag"), some ("lm")⟩) ⟨true, true⟩).store.content =
      some ("old") ∧
    (ensureFreshLlmsFile ⟨"https://e", "public", "llms.txt", JsNum.num 1⟩
        ⟨some ("old"), some ⟨some ("tag"), some ("lm"), some 1⟩⟩ 7200000
        (Except.ok ⟨304, "", some ("tag"), some ("lm")⟩) ⟨true, true⟩).store.metaFile =
      some ⟨some ("tag"), some ("lm"), some 7200000⟩ :=
  ⟨(c7_not_modified_timestamp_only ⟨"https://e", "public", "llms.txt", JsNum.num 1⟩
      ⟨some ("old"), some ⟨some ("tag"), some ("lm"), some 1⟩⟩ 7200000
      ⟨304, "", some ("tag"), some ("lm")⟩ ⟨true, true⟩ (by decide)
      (by simp [freshHit, metaOf, lastFetchedOf, ttlMsOf_one]) rfl rfl).1,
    (c7_not_modified_timestamp_only ⟨"https://e", "public", "llms.txt", JsNum.num 1⟩
      ⟨some ("old"), some ⟨some ("tag"), some ("lm"), some 1⟩⟩ 7200000
      ⟨304, "", some ("tag"), some ("lm")⟩ ⟨true, true⟩ (by decide)
      (by simp [freshHit, metaOf, lastFetchedOf, ttlMsOf_one]) rfl rfl).2.1⟩

/-- Claim C10: when the content file is missing but persisted metadata with a
validator exists and the server answers 304, ensureFreshLlmsFile refreshes
the metadata timestamp and returns the output path even though no file
exists at that path and none is created. -/
theorem c10_not_modified_without_content (cfg : FetcherConfig) (m : MetaJs) (now : Int)
    (resp : FetchOk) (eff : FsEffects) (h1 : cfg.publicUrl ≠ "")
    (h2 : resp.statusCode = 304) (h3 : eff.metaWriteOk = true)
    (h4 : m.etag ≠ none ∨ m.lastModified ≠ none) :
    ensureFreshLlmsFile cfg ⟨none, some m⟩ now (Except.ok resp) eff =
      ⟨Except.ok (outPathOf cfg), ⟨none, some ⟨m.etag, m.lastModified, some now⟩⟩, true⟩ := by
  unfold ensureFreshLlmsFile writeJsonSafe freshHit
  rw [if_neg h1]
  simp [metaOf, h2, h3]

/-- Witness for c10_not_modified_without_content at a concrete metadata-only cache. -/
theorem c10_not_modified_without_content_witness :
    ensureFreshLlmsFile ⟨"https://e", "public", "llms.txt", JsNum.num 1⟩
        ⟨none, some ⟨some ("tag"), none, some 1⟩⟩ 99
        (Except.ok ⟨304, "", some ("tag"), none⟩) ⟨true, true⟩ =
      ⟨Except.ok ("public" ++ ("/") ++ "llms.txt"),
        ⟨none, some ⟨some ("tag"), none, some 99⟩⟩, true⟩ :=
  c10_not_modified_without_content ⟨"https://e", "public", "llms.txt", JsNum.num 1⟩
    ⟨some ("tag"), none, some 1⟩ 99 ⟨304, "", some ("tag"), none⟩ ⟨true, true⟩
    (by decide) rfl rfl (Or.inl (by decide))

/-- Claim C6, code-bug evidence: after a 200 reply whose content write
succeeds but whose metadata write fails, ensureFreshLlmsFile still returns
the output path as plain success: writeJsonSafe discards the failure, the
caller is never informed, and the metadata file stays absent next to the
freshly written content. -/
theorem c6_metadata_write_failure_silently_swallowed :
    ensureFreshLlmsFile ⟨"https://e", "public", "llms.txt", JsNum.num 24⟩ ⟨none, none⟩ 1000
        (Except.ok ⟨200, "body", some ("abc"), none⟩) ⟨true, false⟩ =
      ⟨Except.ok ("public" ++ ("/") ++ "llms.txt"), ⟨some ("body"), none⟩, true⟩ := by
  unfold ensureFreshLlmsFile writeJsonSafe freshHit outPathOf
  simp [metaOf, lastFetchedOf]

/-- Claim C4, code-bug evidence: the source has no maxRedirects bound at
all.  Against a server that answers every URL with a redirect to the same
URL, both fetch functions are still redirecting after any number of hops:
a redirect cycle never produces an error and the recursion never
terminates. -/
theorem c4_redirect_cycle_diverges :
    (∀ fuel url etag lastModified,
      fetchTextFileWithMetadata (fun _ => ServerResp.redirect ("https://e/llms.txt"))
        etag lastModified fuel url = none) ∧
    (∀ fuel url,
      fetchTextFile (fun _ => ServerResp.redirect ("https://e/llms.txt")) fuel url = none) := by
  constructor
  · intro fuel
    induction fuel with
    | zero => intro url etag lastModified; rfl
    | succ n ih =>
      intro url etag lastModified
      simpa [fetchTextFileWithMetadata] using ih ("https://e/llms.txt") etag lastModified
  · intro fuel
    induction fuel with
    | zero => intro url; rfl
    | succ n ih =>
      intro url
      simpa [fetchTextFile] using ih ("https://e/llms.txt")

/-- TTL of a huge hour count, in closed form. -/
theorem ttlMsOf_billion : ttlMsOf (JsNum.num 1000000000) = 3600000000000000 := by
  have h := ttlMsOf_nat 1000000000
  norm_num at h
  exact h

/-- Claim C1, counterexample: with stored lastFetchedAtMs equal to 0, a
content file present, a positive ttl and now - lastFetchedAtMs < ttl, the
source still issues a network request, because the short-circuit also
demands a truthy (nonzero) timestamp. -/
theorem c1_fresh_cache_counterexample :
    0 < ttlMsOf (JsNum.num 1000000000) ∧
    (⟨some ("old"), some ⟨none, none, some 0⟩⟩ : Store).content.isSome = true ∧
    ((1760000000000 : Int) - lastFetchedOf (metaOf ⟨some ("old"), some ⟨none, none, some 0⟩⟩) <
      (ttlMsOf (JsNum.num 1000000000) : Int)) ∧
    (ensureFreshLlmsFile ⟨"https://e", "public", "llms.txt", JsNum.num 1000000000⟩
        ⟨some ("old"), some ⟨none, none, some 0⟩⟩ 1760000000000
        (Except.error JsErr.connError) ⟨true, true⟩).networkCalled = true := by
  refine ⟨by rw [ttlMsOf_billion]; norm_num, rfl, ?_, ?_⟩
  · rw [ttlMsOf_billion]
    norm_num [metaOf, lastFetchedOf]
  · unfold ensureFreshLlmsFile freshHit
    simp [metaOf, lastFetchedOf]

/-- Claim C1, amended: the fresh-cache short-circuit returns the resolved
output path without any network request provided additionally the stored
lastFetchedAtMs is nonzero; and when a first call at a nonzero time is not
served from cache and fetches successfully (a non-304 reply, both writes
succeeding) with a positive ttl, an immediately repeated call issues no
second network request and returns the fresh cached result. -/
theorem c1_fresh_cache_short_circuit :
    (∀ (cfg : FetcherConfig) (st : Store) (now : Int) (reply : Except JsErr FetchOk)
        (eff : FsEffects),
      cfg.publicUrl ≠ "" →
      st.content.isSome = true →
      lastFetchedOf (metaOf st) ≠ 0 →
      now - lastFetchedOf (metaOf st) < (ttlMsOf cfg.ttlHours : Int) →
      0 < ttlMsOf cfg.ttlHours →
      ensureFreshLlmsFile cfg st now reply eff = ⟨Except.ok (outPathOf cfg), st, false⟩) ∧
    (∀ (cfg : FetcherConfig) (st : Store) (now : Int) (resp : FetchOk),
      cfg.publicUrl ≠ "" →
      freshHit cfg st now = false →
      resp.statusCode ≠ 304 →
      now ≠ 0 →
      0 < ttlMsOf cfg.ttlHours →
      (ensureFreshLlmsFile cfg st now (Except.ok resp) ⟨true, true⟩).networkCalled = true ∧
      ensureFreshLlmsFile cfg
          (ensureFreshLlmsFile cfg st now (Except.ok resp) ⟨true, true⟩).store now
          (Except.ok resp) ⟨true, true⟩ =
        ⟨Except.ok (outPathOf cfg),
          (ensureFreshLlmsFile cfg st now (Except.ok resp) ⟨true, true⟩).store, false⟩) := by
  constructor
  · intro cfg st now reply eff h1 h2 h3 h4 _h5
    have hf : freshHit cfg st now = true := by
      simp [freshHit, h2, h3, h4]
    unfold ensureFreshLlmsFile
    rw [if_neg h1, hf]
    rfl
  · intro cfg st now resp h1 h2 h3 h4 h5
    have e1 : ensureFreshLlmsFile cfg st now (Except.ok resp) ⟨true, true⟩ =
        ⟨Except.ok (outPathOf cfg),
          ⟨some resp.text, some ⟨resp.etag, resp.lastModified, some now⟩⟩, true⟩ := by
      unfold ensureFreshLlmsFile writeJsonSafe
      rw [if_neg h1]
      simp [h2, h3]
    refine ⟨by rw [e1], ?_⟩
    rw [e1]
    have hf2 : freshHit cfg ⟨some resp.text, some ⟨resp.etag, resp.lastModified, some now⟩⟩ now =
        true := by
      simp [freshHit, metaOf, lastFetchedOf, h4]
      omega
    unfold ensureFreshLlmsFile
    rw [if_neg h1, hf2]
    rfl

/-- Witness for c1_fresh_cache_short_circuit: a fresh hit at time 2000, and a 200 fetch followed by an immediate second call. -/
theorem c1_fresh_cache_short_circuit_witness :
    (ensureFreshLlmsFile ⟨"https://e", "public", "llms.txt", JsNum.num 1⟩
        ⟨some ("old"), some ⟨none, none, some 1000⟩⟩ 2000
        (Except.error JsErr.connError) ⟨true, true⟩ =
      ⟨Except.ok (outPathOf ⟨"https://e", "public", "llms.txt", JsNum.num 1⟩),
        ⟨some ("old"), some ⟨none, none, some 1000⟩⟩, false⟩) ∧
    ((ensureFreshLlmsFile ⟨"https://e", "public", "llms.txt", JsNum.num 1⟩ ⟨none, none⟩ 2000
        (Except.ok ⟨200, "body", some ("abc"), none⟩) ⟨true, true⟩).networkCalled = true ∧
      ensureFreshLlmsFile ⟨"https://e", "public", "llms.txt", JsNum.num 1⟩
          (ensureFreshLlmsFile ⟨"https://e", "public", "llms.txt", JsNum.num 1⟩ ⟨none, none⟩ 2000
            (Except.ok ⟨200, "body", some ("abc"), none⟩) ⟨true, true⟩).store 2000
          (Except.ok ⟨200, "body", some ("abc"), none⟩) ⟨true, true⟩ =
        ⟨Except.ok (outPathOf ⟨"https://e", "public", "llms.txt", JsNum.num 1⟩),
          (ensureFreshLlmsFile ⟨"https://e", "public", "llms.txt", JsNum.num 1⟩ ⟨none, none⟩ 2000
            (Except.ok ⟨200, "body", some ("abc"), none⟩) ⟨true, true⟩).store, false⟩) :=
  ⟨c1_fresh_cache_short_circuit.1 ⟨"https://e", "public", "llms.txt", JsNum.num 1⟩
      ⟨some ("old"), some ⟨none, none, some 1000⟩⟩ 2000 (Except.error JsErr.connError)
      ⟨true, true⟩ (by decide) rfl (by decide)
      (by rw [ttlMsOf_one]; norm_num [metaOf, lastFetchedOf])
      (by rw [ttlMsOf_one]; norm_num),
    c1_fresh_cache_short_circuit.2 ⟨"https://e", "public", "llms.txt", JsNum.num 1⟩
      ⟨none, none⟩ 2000 ⟨200, "body", some ("abc"), none⟩ (by decide)
      (by simp [freshHit]) (by decide) (by decide)
      (by rw [ttlMsOf_one]; norm_num)⟩

/-- Claim C5, counterexample: a non-finite ttlHours (NaN) is replaced by the
default of 24 hours, not by 0: with a warm cache no network request is
issued, although treating NaN as 0 would force one; moreover with ttl 0 and
a stored timestamp in the future the short-circuit still fires, so even the
always-fetch half of the claim needs a qualification. -/
theorem c5_ttl_counterexample :
    (ttlMsOf JsNum.nan ≠ 0 ∧
      (ensureFreshLlmsFile ⟨"https://e", "public", "llms.txt", JsNum.nan⟩
          ⟨some ("old"), some ⟨none, none, some 1⟩⟩ 2
          (Except.error JsErr.connError) ⟨true, true⟩).networkCalled = false) ∧
    (ttlMsOf (JsNum.num 0) = 0 ∧
      (ensureFreshLlmsFile ⟨"https://e", "public", "llms.txt", JsNum.num 0⟩
          ⟨some ("old"), some ⟨none, none, some 10⟩⟩ 5
          (Except.error JsErr.connError) ⟨true, true⟩).networkCalled = false) := by
  have hnan : ttlMsOf JsNum.nan = 86400000 := ttlMsOf_notFinite JsNum.nan rfl
  have h0 : ttlMsOf (JsNum.num 0) = 0 := ttlMsOf_nonpos 0 le_rfl
  refine ⟨⟨by rw [hnan]; norm_num, ?_⟩, h0, ?_⟩
  · have hf : freshHit ⟨"https://e", "public", "llms.txt", JsNum.nan⟩
        ⟨some ("old"), some ⟨none, none, some 1⟩⟩ 2 = true := by
      simp [freshHit, metaOf, lastFetchedOf, hnan]
    unfold ensureFreshLlmsFile
    rw [hf]
    rfl
  · have hf : freshHit ⟨"https://e", "public", "llms.txt", JsNum.num 0⟩
        ⟨some ("old"), some ⟨none, none, some 10⟩⟩ 5 = true := by
      simp [freshHit, metaOf, lastFetchedOf, h0]
    unfold ensureFreshLlmsFile
    rw [hf]
    rfl

/-- Claim C5, amended: with ttlHours 0 and a stored timestamp not in the
future, ensureFreshLlmsFile always attempts the network fetch; a nonpositive
finite ttlHours is clamped to 0; a non-finite ttlHours (NaN or an infinity)
is replaced by the default of 24 hours, not treated as 0. -/
theorem c5_ttl_normalization :
    (∀ (cfg : FetcherConfig) (st : Store) (now : Int) (reply : Except JsErr FetchOk)
        (eff : FsEffects),
      cfg.publicUrl ≠ "" →
      cfg.ttlHours = JsNum.num 0 →
      lastFetchedOf (metaOf st) ≤ now →
      (ensureFreshLlmsFile cfg st now reply eff).networkCalled = true) ∧
    (∀ q : Rat, q ≤ 0 → ttlMsOf (JsNum.num q) = 0) ∧
    (∀ t : JsNum, t.isFinite = false → ttlMsOf t = ttlMsOf (JsNum.num 24)) := by
  refine ⟨?_, ttlMsOf_nonpos, ?_⟩
  · intro cfg st now reply eff h1 h2 h3
    have h0 : ttlMsOf cfg.ttlHours = 0 := by rw [h2]; exact ttlMsOf_nonpos 0 le_rfl
    have hf : freshHit cfg st now = false := by
      simp only [freshHit, h0]
      simp
      intro _ _
      omega
    unfold ensureFreshLlmsFile
    rw [if_neg h1]
    rcases reply with e | resp
    · by_cases hc : st.content.isSome <;> simp [hf, hc]
    · by_cases h304 : resp.statusCode = 304
      · simp [hf, h304]
      · by_cases hw : eff.contentWriteOk
        · simp [hf, h304, hw]
        · by_cases hc : st.content.isSome <;> simp [hf, h304, hw, hc]
  · intro t h
    have h24 : ttlMsOf (JsNum.num 24) = 86400000 := by
      have hx := ttlMsOf_nat 24
      norm_num at hx
      exact hx
    rw [ttlMsOf_notFinite t h, h24]

/-- Witness for c5_ttl_normalization at ttl 0, ttl -1 and a non-finite ttl. -/
theorem c5_ttl_normalization_witness :
    ((ensureFreshLlmsFile ⟨"https://e", "public", "llms.txt", JsNum.num 0⟩
        ⟨some ("old"), some ⟨none, none, some 5⟩⟩ 10
        (Except.error JsErr.connError) ⟨true, true⟩).networkCalled = true) ∧
    ttlMsOf (JsNum.num (-1)) = 0 ∧
    ttlMsOf JsNum.posInf = ttlMsOf (JsNum.num 24) :=
  ⟨c5_ttl_normalization.1 ⟨"https://e", "public", "llms.txt", JsNum.num 0⟩
      ⟨some ("old"), some ⟨none, none, some 5⟩⟩ 10 (Except.error JsErr.connError)
      ⟨true, true⟩ (by decide) rfl (by norm_num [metaOf, lastFetchedOf]),
    c5_ttl_normalization.2.1 (-1) (by norm_num),
    c5_ttl_normalization.2.2 JsNum.posInf rfl⟩

/-- Claim C8, counterexample: appending a trailing slash to a base URL with
a nonempty query changes the joined URL (the extra slash lands in the
query, which joinUrl keeps), and a base whose path already ends in a double
slash is joined with a double slash right before llms.txt. -/
theorem c8_join_counterexample :
    joinUrl (appendSlashToUrl ⟨String.toList ("http"), String.toList ("h"), none,
        String.toList ("/a"), String.toList ("?q"), []⟩) ≠
      joinUrl ⟨String.toList ("http"), String.toList ("h"), none,
        String.toList ("/a"), String.toList ("?q"), []⟩ ∧
    listEndsWith (joinUrl ⟨String.toList ("http"), String.toList ("h"), none,
        String.toList ("/a//"), [], []⟩).pathname (String.toList ("//llms.txt")) :=
  ⟨by decide, ⟨String.toList ("/a"), by decide⟩⟩

/-- Claim C8, amended: for a base URL with empty query and fragment whose
path does not already end in a slash, and likewise for the naive fallback
join on an unparsable base, joining with and without a trailing slash give
the same result, and the resulting path ends in /llms.txt with no double
slash at the join point. -/
theorem c8_trailing_slash_join :
    (∀ u : UrlParts, u.search = [] → u.hash = [] → u.pathname.getLast? ≠ some '/' →
      joinUrl (appendSlashToUrl u) = joinUrl u ∧
      listEndsWith (joinUrl u).pathname (String.toList ("/llms.txt")) ∧
      ¬ listEndsWith (joinUrl u).pathname (String.toList ("//llms.txt"))) ∧
    (∀ base : List Char, base.getLast? ≠ some '/' →
      joinUrlNaive (base ++ [ '/' ]) = joinUrlNaive base ∧
      listEndsWith (joinUrlNaive base) (String.toList ("/llms.txt")) ∧
      ¬ listEndsWith (joinUrlNaive base) (String.toList ("//llms.txt"))) := by
  have core : ∀ p : List Char, p.getLast? ≠ some '/' →
      joinPathname (p ++ [ '/' ]) = joinPathname p ∧
      listEndsWith (joinPathname p) (String.toList ("/llms.txt")) ∧
      ¬ listEndsWith (joinPathname p) (String.toList ("//llms.txt")) := by
    intro p hp
    refine ⟨?_, ⟨p, by simp [joinPathname, hp]⟩, ?_⟩
    · unfold joinPathname
      rw [if_pos (List.getLast?_concat p), List.dropLast_concat, if_neg hp]
    · unfold joinPathname
      rw [if_neg hp]
      rintro ⟨t, ht⟩
      have h2 : p ++ String.toList ("/llms.txt") =
          (t ++ [ '/' ]) ++ String.toList ("/llms.txt") := by
        rw [ht]
        simp
      have h3 : p = t ++ [ '/' ] := List.append_cancel_right h2
      rw [h3, List.getLast?_concat] at hp
      exact hp rfl
  constructor
  · intro u hs hh hp
    have hc := core u.pathname hp
    refine ⟨?_, hc.2.1, hc.2.2⟩
    unfold appendSlashToUrl
    rw [if_neg (by simp [hh]), if_neg (by simp [hs])]
    unfold joinUrl
    simp only
    rw [hc.1]
  · intro base hb
    exact core base hb

/-- Witness for c8_trailing_slash_join at a concrete https base and a concrete unparsable base. -/
theorem c8_trailing_slash_join_witness :
    (joinUrl (appendSlashToUrl ⟨String.toList ("https"), String.toList ("example.com"), none,
        String.toList ("/docs"), [], []⟩) =
      joinUrl ⟨String.toList ("https"), String.toList ("example.com"), none,
        String.toList ("/docs"), [], []⟩ ∧
      listEndsWith (joinUrl ⟨String.toList ("https"), String.toList ("example.com"), none,
        String.toList ("/docs"), [], []⟩).pathname (String.toList ("/llms.txt")) ∧
      ¬ listEndsWith (joinUrl ⟨String.toList ("https"), String.toList ("example.com"), none,
        String.toList ("/docs"), [], []⟩).pathname (String.toList ("//llms.txt"))) ∧
    (joinUrlNaive (String.toList ("example-base") ++ [ '/' ]) =
      joinUrlNaive (String.toList ("example-base"))) :=
  ⟨c8_trailing_slash_join.1 ⟨String.toList ("https"), String.toList ("example.com"), none,
      String.toList ("/docs"), [], []⟩ rfl rfl (by decide),
    (c8_trailing_slash_join.2 (String.toList ("example-base")) (by decide)).1⟩

/-- A decimal digit character is not the separator. -/
theorem digitChar_ne_colon (n : Nat) (h : n < 10) : digitChar n ≠ ':' := by
  interval_cases n <;> decide

/-- A decimal digit character passes Char.isDigit. -/
theorem digitChar_isDigit (n : Nat) (h : n < 10) : (digitChar n).isDigit = true := by
  interval_cases n <;> decide

/-- Code point of a decimal digit character. -/
theorem digitChar_toNat (n : Nat) (h : n < 10) : (digitChar n).toNat = 48 + n := by
  interval_cases n <;> decide

/-- Number applied to a two-digit string. -/
theorem jsNumber_two_digits (a b : Nat) (ha : a < 10) (hb : b < 10) :
    jsNumber [digitChar a, digitChar b] = some (10 * a + b) := by
  unfold jsNumber
  rw [if_pos]
  · simp [List.foldl, digitChar_toNat a ha, digitChar_toNat b hb]
  · simp [List.all, digitChar_isDigit a ha, digitChar_isDigit b hb]

/-- split on the colon of a five-character HH:MM string. -/
theorem jsSplit_hhmm (c1 c2 c3 c4 : Char) (h1 : c1 ≠ ':') (h2 : c2 ≠ ':')
    (h3 : c3 ≠ ':') (h4 : c4 ≠ ':') :
    jsSplit ':' [c1, c2, ':', c3, c4] = [[c1, c2], [c3, c4]] := by
  simp [jsSplit, h1, h2, h3, h4]

/-- Claim C9: for every well-formed wall-clock string HH:MM, msUntilNextRunAt
returns a strictly positive delay of at most 24 hours after which the wall
clock reads exactly HH:MM; in particular a time that already passed today is
scheduled for tomorrow, never with a zero or negative delay. -/
theorem c9_delay_until_next_run (hh mm now : Nat) (h1 : hh < 24) (h2 : mm < 60) :
    ∃ d, msUntilNextRunAt (hhmmChars hh mm) now = some d ∧
      0 < d ∧ d ≤ 86400000 ∧ (now + d) % 86400000 = hh * 3600000 + mm * 60000 := by
  have ha : hh / 10 < 10 := by omega
  have hb : hh % 10 < 10 := by omega
  have hc : mm / 10 < 10 := by omega
  have hd : mm % 10 < 10 := by omega
  have e1 : jsSplit ':' (hhmmChars hh mm) =
      [[digitChar (hh / 10), digitChar (hh % 10)], [digitChar (mm / 10), digitChar (mm % 10)]] :=
    jsSplit_hhmm _ _ _ _ (digitChar_ne_colon _ ha) (digitChar_ne_colon _ hb)
      (digitChar_ne_colon _ hc) (digitChar_ne_colon _ hd)
  have e2 : jsNumber [digitChar (hh / 10), digitChar (hh % 10)] = some hh := by
    rw [jsNumber_two_digits _ _ ha hb]
    congr 1
    omega
  have e3 : jsNumber [digitChar (mm / 10), digitChar (mm % 10)] = some mm := by
    rw [jsNumber_two_digits _ _ hc hd]
    congr 1
    omega
  have e4 : msUntilNextRunAt (hhmmChars hh mm) now =
      some (if now - now % 86400000 + (hh * 3600000 + mm * 60000) ≤ now
        then now - now % 86400000 + (hh * 3600000 + mm * 60000) + 86400000 - now
        else now - now % 86400000 + (hh * 3600000 + mm * 60000) - now) := by
    unfold msUntilNextRunAt
    rw [e1]
    simp only [e2, e3]
  rw [e4]
  refine ⟨_, rfl, ?_, ?_, ?_⟩ <;> split <;> omega

/-- Witness for c9_delay_until_next_run: runAt 02:00 at clock 03:00. -/
theorem c9_delay_until_next_run_witness :
    (2 < 24 ∧ 0 < 60) ∧
    (∃ d, msUntilNextRunAt (hhmmChars 2 0) 10800000 = some d ∧
      0 < d ∧ d ≤ 86400000 ∧ (10800000 + d) % 86400000 = 2 * 3600000 + 0 * 60000) :=
  ⟨⟨by decide, by decide⟩, c9_delay_until_next_run 2 0 10800000 (by decide) (by decide)⟩
